import Mathlib

/-!
Verification development for the title-setting command plugin
(`src/plugin.py`, class `titleCommand`).

The Python handler is embedded shallowly:

* Python string slicing `s[n:]` becomes `pyDrop`, `s.startswith(p)` becomes
  `pyStartsWith`, both defined directly over the character list, exactly as
  Python indexes by character.
* The single remote call (`requests.post` + `raise_for_status` + `.json()`)
  is modelled by passing in a `RemoteResponse` value describing what the
  transport observed: a transport-level exception (connection error or
  timeout), or an HTTP response with a status code and a body that either
  parses to a JSON object (with optional `status` / `message` string fields,
  the only fields the handler reads) or does not parse at all.
  `raise_for_status` raises `HTTPError` for codes in [400, 600), and a parse
  failure raises `JSONDecodeError`; both are subclasses of
  `requests.exceptions.RequestException` and so are caught by the transport
  handler at line 119 of the source.
* `self.send_text` calls are collected in order in `messages`; `logger`
  calls in `logs` (log text is abbreviated — only presence matters);
  each attempted HTTP POST is recorded in `calls`.
* The handler returns the tuple `(handled, description, terminal)`; the
  spec-level Success/Failure classification of that return is carried in
  the `outcome` field, set branch-by-branch to mirror the source f-strings.
* At line 110 of the source the variable `display_content` is referenced in
  a branch where it was never assigned; in Python this raises `NameError`,
  which the `except Exception` handler at line 124 catches (its
  user-message line 126 is commented out in the source). The embedding
  makes that path explicit.
-/

namespace TitlePlugin

/-- Characters Python treats as whitespace for `str` objects: the set matched
by the regex class backslash-s and stripped by `str.strip()` — ASCII space,
TAB/LF/VT/FF/CR, the information separators U+001C–U+001F, NEL, NBSP, and the
Unicode space separators. -/
def isPySpace (c : Char) : Bool :=
  c = ' ' || c = '\t' || c = '\n' || c = '\x0b' || c = '\x0c' || c = '\r' ||
  c = '\x1c' || c = '\x1d' || c = '\x1e' || c = '\x1f' ||
  c = '\x85' || c = '\xa0' || c = '\u1680' ||
  ('\u2000' ≤ c && c ≤ '\u200a') || c = '\u2028' || c = '\u2029' ||
  c = '\u202f' || c = '\u205f' || c = '\u3000'

/-- Python `s[n:]` (slice from character index `n`). -/
def pyDrop (s : String) (n : Nat) : String := ⟨s.data.drop n⟩

/-- Python `s.startswith(p)`. -/
def pyStartsWith (s p : String) : Bool := p.data.isPrefixOf s.data

/-- Python truthiness of `s.strip()`: the stripped string is non-empty, i.e.
some character of `s` is not whitespace. -/
def pyStripTruthy (s : String) : Bool := s.data.any (fun c => !isPySpace c)

/-- `re.match` with pattern caret, `/title`, one-or-more whitespace, dollar
(source line 60) succeeds on `s`: the text is `/title` followed by a
non-empty run of whitespace and nothing else. -/
def matchesTitleWs (s : String) : Bool :=
  pyStartsWith s "/title" && !(pyDrop s 6).data.isEmpty &&
    (pyDrop s 6).data.all isPySpace

/-- The JSON body sent to `set_group_special_title` (source lines 78–82). -/
structure TitleRequest where
  group_id : String
  user_id : String
  special_title : String
deriving DecidableEq

/-- The JSON object fields the handler reads from the response body. -/
structure RespBody where
  status : Option String
  message : Option String
deriving DecidableEq

/-- Observable behavior of the one remote call:
`transportError` covers `requests.post` raising (connection error, or timeout
after `requestTimeout` seconds); `httpResponse code body` is a completed HTTP
exchange, where `body = none` means the body does not parse as JSON. -/
inductive RemoteResponse where
  | transportError (desc : String)
  | httpResponse (code : Nat) (body : Option RespBody)
deriving DecidableEq

/-- Spec-level Service Outcome of one invocation. -/
inductive ServiceOutcome where
  | success (title : String)
  | failure (reason : String)
  | scopeRejection
deriving DecidableEq

/-- Everything one invocation produces: the `send_text` messages in order,
the log lines, the HTTP POSTs attempted, the Service Outcome, and the
`(handled, description, terminal)` tuple returned to the host. -/
structure StepResult where
  messages : List String
  logs : List String
  calls : List TitleRequest
  outcome : ServiceOutcome
  handled : Bool
  description : String
  terminal : Bool
deriving DecidableEq

/-- `timeout=10` on the `requests.post` call (source line 95). -/
def requestTimeout : Nat := 10

/-- Default of config key `api.url` (source line 75). -/
def apiUrlDefault : String := "http://127.0.0.1:3000"

/-- Error text of the `NameError` raised at source line 110 when
`display_content` is referenced without having been assigned (Python renders
the variable name quoted; the quotes are omitted here). -/
def nameErrorText : String := "name display_content is not defined"

/-- `titleCommand._set_title` (source lines 71–127), with the remote call's
observed behavior supplied as `resp`. -/
def setTitle (group_id user_id title_content : String) (resp : RemoteResponse) :
    StepResult :=
  let req : TitleRequest := ⟨group_id, user_id, title_content⟩
  let reqLog := "设置头衔请求: " ++ apiUrlDefault ++ "/set_group_special_title"
  match resp with
  | .transportError e =>
      { messages := ["❌ 网络错误，请稍后重试~"],
        logs := [reqLog, "请求设置头衔API失败: " ++ e],
        calls := [req],
        outcome := .failure ("API请求失败: " ++ e),
        handled := true, description := "API请求失败: " ++ e, terminal := false }
  | .httpResponse code body =>
      if 400 ≤ code ∧ code < 600 then
        -- response.raise_for_status() raises HTTPError (a RequestException)
        let e := "HTTPError " ++ toString code
        { messages := ["❌ 网络错误，请稍后重试~"],
          logs := [reqLog, "请求设置头衔API失败: " ++ e],
          calls := [req],
          outcome := .failure ("API请求失败: " ++ e),
          handled := true, description := "API请求失败: " ++ e, terminal := false }
      else
        match body with
        | none =>
            -- response.json() raises JSONDecodeError (a RequestException)
            let e := "JSONDecodeError"
            { messages := ["❌ 网络错误，请稍后重试~"],
              logs := [reqLog, "请求设置头衔API失败: " ++ e],
              calls := [req],
              outcome := .failure ("API请求失败: " ++ e),
              handled := true, description := "API请求失败: " ++ e,
              terminal := false }
        | some result =>
            let respLog := "设置头衔响应"
            if result.status = some "ok" ∨ code = 200 then
              if pyStripTruthy title_content then
                let display_content := title_content
                { messages := ["✅ 已为你设置专属头衔：" ++ display_content],
                  logs := [reqLog, respLog],
                  calls := [req],
                  outcome := .success title_content,
                  handled := true,
                  description := "成功设置头衔: " ++ title_content,
                  terminal := false }
              else if 0 < title_content.data.length then
                -- space_count > 0 but display_content was never assigned:
                -- NameError, caught at line 124; the user message at line
                -- 126 is commented out in the source
                { messages := [],
                  logs := [reqLog, respLog,
                           "设置头衔时发生未知错误: " ++ nameErrorText],
                  calls := [req],
                  outcome := .failure ("未知错误: " ++ nameErrorText),
                  handled := true,
                  description := "未知错误: " ++ nameErrorText,
                  terminal := false }
              else
                { messages := ["✅ 已收回头衔"],
                  logs := [reqLog, respLog],
                  calls := [req],
                  outcome := .success title_content,
                  handled := true,
                  description := "成功设置头衔: " ++ title_content,
                  terminal := false }
            else
              let error_msg := result.message.getD "未知错误"
              { messages := ["❌ 设置头衔失败：" ++ error_msg],
                logs := [reqLog, respLog],
                calls := [req],
                outcome := .failure error_msg,
                handled := true,
                description := "设置头衔失败: " ++ error_msg,
                terminal := false }

/-- `titleCommand._handle_special_cases` (source lines 57–69). -/
def handleSpecialCases (group_id user_id raw_text : String)
    (resp : RemoteResponse) : StepResult :=
  if matchesTitleWs raw_text then
    let spaces := pyDrop raw_text 6
    let spaces := if 1 ≤ spaces.data.length then pyDrop spaces 1 else spaces
    setTitle group_id user_id spaces resp
  else
    setTitle group_id user_id
      (if pyStartsWith raw_text "/title " then pyDrop raw_text 7 else raw_text)
      resp

/-- `titleCommand._remove_title` (source lines 129–131). -/
def removeTitle (group_id user_id : String) (resp : RemoteResponse) :
    StepResult :=
  setTitle group_id user_id "" resp

/-- `titleCommand.execute` (source lines 23–55). `group_info` truthiness is
modelled by `groupPresent`, with `group_id` the id used when present. -/
def execute (groupPresent : Bool) (group_id user_id raw_text : String)
    (resp : RemoteResponse) : StepResult :=
  if !groupPresent then
    { messages := ["专属头衔只能在群聊中设置哦~"], logs := [], calls := [],
      outcome := .scopeRejection, handled := true,
      description := "不在群聊中，无法设置头衔", terminal := false }
  else if raw_text = "/title" ∨ raw_text = "/title " then
    removeTitle group_id user_id resp
  else if pyStartsWith raw_text "/title " then
    setTitle group_id user_id (pyDrop raw_text 7) resp
  else
    handleSpecialCases group_id user_id raw_text resp

/-- The title string `execute` passes to `_set_title` in group scope — the
Command Parser of the spec, read off the dispatch in `execute` and
`_handle_special_cases`. -/
def parsedTitle (raw_text : String) : String :=
  if raw_text = "/title" ∨ raw_text = "/title " then ""
  else if pyStartsWith raw_text "/title " then pyDrop raw_text 7
  else if matchesTitleWs raw_text then
    (let spaces := pyDrop raw_text 6
     if 1 ≤ spaces.data.length then pyDrop spaces 1 else spaces)
  else if pyStartsWith raw_text "/title " then pyDrop raw_text 7
  else raw_text

/-- The response classifies as success at source line 103: no
`raise_for_status` exception, a parsable body, and (`status` field equals
`"ok"`, or HTTP code 200). -/
def RespSuccess : RemoteResponse → Prop
  | .transportError _ => False
  | .httpResponse code body =>
      ¬ (400 ≤ code ∧ code < 600) ∧
      match body with
      | none => False
      | some r => r.status = some "ok" ∨ code = 200

instance : DecidablePred RespSuccess := fun resp =>
  match resp with
  | .transportError _ => isFalse (fun h => h)
  | .httpResponse _ none =>
      isFalse (fun h => h.2)
  | .httpResponse _ (some _) =>
      inferInstanceAs (Decidable (_ ∧ (_ ∨ _)))

/-- The invocation hits the unexpected-exception handler at source line 124:
success-classified response but a non-empty, whitespace-only title, so line
110 raises `NameError`. -/
def UnexpectedPath (title : String) (resp : RemoteResponse) : Prop :=
  RespSuccess resp ∧ pyStripTruthy title = false ∧ 0 < title.data.length

instance (title : String) (resp : RemoteResponse) :
    Decidable (UnexpectedPath title resp) :=
  inferInstanceAs (Decidable (_ ∧ _ ∧ _))

/-- The remote call fails at transport level: `requests.post` raised, or
`raise_for_status` raised (code in [400, 600)), or the body does not parse. -/
def TransportFailure : RemoteResponse → Prop
  | .transportError _ => True
  | .httpResponse code body => (400 ≤ code ∧ code < 600) ∨ body = none

instance : DecidablePred TransportFailure := fun resp =>
  match resp with
  | .transportError _ => isTrue trivial
  | .httpResponse _ _ =>
      inferInstanceAs (Decidable (_ ∨ _))


/-! ### Helper lemmas -/

theorem string_eq_iff_data (s t : String) : s = t ↔ s.data = t.data :=
  ⟨fun h => h ▸ rfl, String.ext⟩

theorem pyDrop_mk (l : List Char) (n : Nat) :
    pyDrop ⟨l⟩ n = ⟨l.drop n⟩ := rfl

/-- `execute` in group scope is `_set_title` applied to the parsed title. -/
theorem execute_group (gid uid raw : String) (resp : RemoteResponse) :
    execute true gid uid raw resp = setTitle gid uid (parsedTitle raw) resp := by
  unfold execute parsedTitle handleSpecialCases removeTitle
  rw [if_neg (by decide : ¬ ((!true) = true))]
  split_ifs <;> rfl

/-! ### Parser lemmas -/

/-- C7 core: a trigger that is the token followed by a pure whitespace run
parses to that run with its first character dropped. -/
theorem parse_ws_run (w : String) (h : w.data.all isPySpace = true) :
    parsedTitle ("/title" ++ w) = pyDrop w 1 := by
  obtain ⟨l⟩ := w
  rcases l with _ | ⟨c, cs⟩
  · decide
  · by_cases hc : c = ' '
    · subst hc
      rcases cs with _ | ⟨c2, cs2⟩
      · decide
      · show parsedTitle ⟨'/' :: 't' :: 'i' :: 't' :: 'l' :: 'e' :: ' ' :: c2 :: cs2⟩
          = ⟨c2 :: cs2⟩
        unfold parsedTitle
        rw [if_neg, if_pos]
        · rfl
        · rfl
        · rintro (hx | hx) <;> rw [string_eq_iff_data] at hx <;> simp at hx
    · have hall : (c :: cs).all isPySpace = true := h
      show parsedTitle ⟨'/' :: 't' :: 'i' :: 't' :: 'l' :: 'e' :: c :: cs⟩
        = ⟨(c :: cs).drop 1⟩
      unfold parsedTitle
      rw [if_neg, if_neg, if_pos]
      · show (if 1 ≤ (c :: cs).length then
            pyDrop ⟨c :: cs⟩ 1 else (⟨c :: cs⟩ : String)) = ⟨(c :: cs).drop 1⟩
        rw [if_pos (show 1 ≤ (c :: cs).length from Nat.succ_le_succ (Nat.zero_le _))]
        rfl
      · show (pyStartsWith _ "/title" && _ && _) = true
        have h1 : pyStartsWith ⟨'/' :: 't' :: 'i' :: 't' :: 'l' :: 'e' :: c :: cs⟩
            "/title" = true := rfl
        simp only [h1, Bool.true_and]
        show (!(c :: cs).isEmpty && (c :: cs).all isPySpace) = true
        simp [hall]
      · show ¬ (pyStartsWith _ "/title " = true)
        show ¬ ((' ' == c && List.isPrefixOf [] cs) = true)
        simp only [List.isPrefixOf, Bool.and_true, beq_iff_eq]
        exact fun hx => hc hx.symm
      · rintro (hx | hx) <;> rw [string_eq_iff_data] at hx <;> simp at hx
        exact hc hx.1

/-- C9 core: token, one space, non-empty remainder parses to the remainder. -/
theorem parse_after_space (r : String) (h : r ≠ "") :
    parsedTitle ("/title " ++ r) = r := by
  obtain ⟨l⟩ := r
  rcases l with _ | ⟨c, cs⟩
  · exact absurd rfl h
  · show parsedTitle ⟨'/' :: 't' :: 'i' :: 't' :: 'l' :: 'e' :: ' ' :: c :: cs⟩
      = ⟨c :: cs⟩
    unfold parsedTitle
    rw [if_neg, if_pos]
    · rfl
    · rfl
    · rintro (hx | hx) <;> rw [string_eq_iff_data] at hx <;> simp at hx

/-! ### Client-side lemmas -/

theorem setTitle_flags (gid uid title : String) (resp : RemoteResponse) :
    (setTitle gid uid title resp).handled = true ∧
    (setTitle gid uid title resp).terminal = false := by
  rcases resp with e | ⟨code, body⟩
  · exact ⟨rfl, rfl⟩
  · rcases body with _ | r <;> simp only [setTitle] <;> split_ifs <;>
      exact ⟨rfl, rfl⟩

theorem setTitle_empty_success (gid uid : String) (resp : RemoteResponse)
    (h : RespSuccess resp) :
    (setTitle gid uid "" resp).messages = ["✅ 已收回头衔"] ∧
    (setTitle gid uid "" resp).outcome = .success "" := by
  rcases resp with e | ⟨code, body⟩
  · exact ((h : False)).elim
  rcases body with _ | r
  · exact ((h.2 : False)).elim
  obtain ⟨hrange, hok⟩ := h
  simp only [setTitle]
  rw [if_neg hrange, if_pos hok,
    if_neg (by decide : ¬ (pyStripTruthy "" = true)),
    if_neg (by decide : ¬ (0 < ("" : String).data.length))]
  exact ⟨rfl, rfl⟩

/-! ### Claim theorems -/

/-- C1 (amended): if the remote responds with body status `"fail"` and message
`"permission denied"`, and the HTTP status code is neither 200 nor an
error code in [400, 600), then the user message reports the remote reason
and the Service Outcome is `failure "permission denied"`, for every title. -/
theorem remote_reported_failure_message (gid uid title : String) (code : Nat)
    (h200 : code ≠ 200) (hrange : ¬ (400 ≤ code ∧ code < 600)) :
    (setTitle gid uid title
        (.httpResponse code (some ⟨some "fail", some "permission denied"⟩))).messages
      = ["❌ 设置头衔失败：permission denied"] ∧
    (setTitle gid uid title
        (.httpResponse code (some ⟨some "fail", some "permission denied"⟩))).outcome
      = .failure "permission denied" := by
  have hcond : ¬ ((some "fail" : Option String) = some "ok" ∨ code = 200) := by
    rintro (hx | hx)
    · simp at hx
    · exact h200 hx
  simp only [setTitle]
  rw [if_neg hrange, if_neg hcond]
  exact ⟨rfl, rfl⟩

/-- C1 witness: concrete instance at HTTP code 201. -/
theorem remote_reported_failure_message_witness :
    (201 ≠ 200 ∧ ¬ (400 ≤ 201 ∧ 201 < 600)) ∧
    (setTitle "10" "20" "VIP"
        (.httpResponse 201 (some ⟨some "fail", some "permission denied"⟩))).messages
      = ["❌ 设置头衔失败：permission denied"] ∧
    (setTitle "10" "20" "VIP"
        (.httpResponse 201 (some ⟨some "fail", some "permission denied"⟩))).outcome
      = .failure "permission denied" :=
  ⟨⟨by decide, by decide⟩,
    remote_reported_failure_message "10" "20" "VIP" 201 (by decide) (by decide)⟩

/-- C1 counterexample: with HTTP code 200 and the same `"fail"` body, the
code takes the success branch — the outcome is not
`failure "permission denied"` and the message echoes the title instead. -/
theorem remote_fail_body_ignored_at_200 :
    (setTitle "10" "20" "VIP"
        (.httpResponse 200 (some ⟨some "fail", some "permission denied"⟩))).outcome
      ≠ .failure "permission denied" ∧
    (setTitle "10" "20" "VIP"
        (.httpResponse 200 (some ⟨some "fail", some "permission denied"⟩))).messages
      = ["✅ 已为你设置专属头衔：VIP"] := by
  exact ⟨by decide, by decide⟩

/-- C2 (amended): every dispatched Title Request yields exactly one Service
Outcome (the single `outcome` of the one `StepResult`) and at most one
user-facing message: exactly one, except on the unexpected-error path
(success-classified response with a non-empty whitespace-only title), where
none is sent. -/
theorem one_message_unless_unexpected (gid uid title : String)
    (resp : RemoteResponse) :
    (setTitle gid uid title resp).messages.length
      = if UnexpectedPath title resp then 0 else 1 := by
  rcases resp with e | ⟨code, body⟩
  · rw [if_neg (fun hx : UnexpectedPath title (.transportError e) =>
      (hx.1 : False))]
    rfl
  rcases body with _ | r
  · rw [if_neg (fun hx : UnexpectedPath title (.httpResponse code none) =>
      (hx.1.2 : False))]
    simp only [setTitle]
    split_ifs <;> rfl
  by_cases hrange : 400 ≤ code ∧ code < 600
  · rw [if_neg (fun hx : UnexpectedPath title (.httpResponse code (some r)) =>
      hx.1.1 hrange)]
    simp only [setTitle]
    rw [if_pos hrange]
    rfl
  · by_cases hok : r.status = some "ok" ∨ code = 200
    · by_cases hstrip : pyStripTruthy title = true
      · rw [if_neg
          (fun hx : UnexpectedPath title (.httpResponse code (some r)) => by
            rw [hx.2.1] at hstrip; exact Bool.noConfusion hstrip)]
        simp only [setTitle]
        rw [if_neg hrange, if_pos hok, if_pos hstrip]
        rfl
      · by_cases hlen : 0 < title.data.length
        · rw [if_pos
            (show UnexpectedPath title (.httpResponse code (some r)) from
              ⟨⟨hrange, hok⟩,
                by revert hstrip; cases pyStripTruthy title <;> simp, hlen⟩)]
          simp only [setTitle]
          rw [if_neg hrange, if_pos hok, if_neg hstrip, if_pos hlen]
          rfl
        · rw [if_neg
            (fun hx : UnexpectedPath title (.httpResponse code (some r)) =>
              hlen hx.2.2)]
          simp only [setTitle]
          rw [if_neg hrange, if_pos hok, if_neg hstrip, if_neg hlen]
          rfl
    · rw [if_neg
        (fun hx : UnexpectedPath title (.httpResponse code (some r)) =>
          hok hx.1.2)]
      simp only [setTitle]
      rw [if_neg hrange, if_neg hok]
      rfl

/-- C2 counterexample: for the whitespace-only title derived from
token-plus-two-spaces, a success response produces zero user messages, not
exactly one. -/
theorem no_message_on_whitespace_title :
    (execute true "10" "20" "/title  "
        (.httpResponse 200 (some ⟨some "ok", none⟩))).messages = [] ∧
    (execute true "10" "20" "/title  "
        (.httpResponse 200 (some ⟨some "ok", none⟩))).messages.length ≠ 1 := by
  exact ⟨by decide, by decide⟩

/-- C3 (amended): in group scope, a success-classified response yields
`success (parsedTitle raw)` whenever the parsed title is empty or contains a
non-whitespace character (otherwise the `NameError` path is taken instead). -/
theorem roundtrip_success_outcome (gid uid raw : String) (resp : RemoteResponse)
    (hresp : RespSuccess resp)
    (ht : parsedTitle raw = "" ∨ pyStripTruthy (parsedTitle raw) = true) :
    (execute true gid uid raw resp).outcome = .success (parsedTitle raw) := by
  rw [execute_group]
  rcases resp with e | ⟨code, body⟩
  · exact ((hresp : False)).elim
  rcases body with _ | r
  · exact ((hresp.2 : False)).elim
  obtain ⟨hrange, hok⟩ := hresp
  simp only [setTitle]
  rw [if_neg hrange, if_pos hok]
  rcases ht with h | h
  · rw [h, if_neg (by decide : ¬ (pyStripTruthy "" = true)),
      if_neg (by decide : ¬ (0 < ("" : String).data.length))]
  · rw [if_pos h]

/-- C3 witness: trigger `/title hello` with a 200/ok stub round-trips. -/
theorem roundtrip_success_outcome_witness :
    RespSuccess (.httpResponse 200 (some ⟨some "ok", none⟩)) ∧
    pyStripTruthy (parsedTitle "/title hello") = true ∧
    (execute true "10" "20" "/title hello"
        (.httpResponse 200 (some ⟨some "ok", none⟩))).outcome
      = .success (parsedTitle "/title hello") :=
  ⟨by decide, by decide,
    roundtrip_success_outcome "10" "20" "/title hello"
      (.httpResponse 200 (some ⟨some "ok", none⟩)) (by decide)
      (Or.inr (by decide))⟩

/-- C3 counterexample: the trigger made of the token and two spaces parses to
a one-space title; on a success response the outcome is the unexpected-error
failure, not `success` of the parsed title. -/
theorem roundtrip_breaks_on_whitespace_title :
    parsedTitle "/title  " = " " ∧
    (execute true "10" "20" "/title  "
        (.httpResponse 200 (some ⟨some "ok", none⟩))).outcome
      ≠ .success (parsedTitle "/title  ") ∧
    (execute true "10" "20" "/title  "
        (.httpResponse 200 (some ⟨some "ok", none⟩))).outcome
      = .failure ("未知错误: " ++ nameErrorText) := by
  exact ⟨by decide, by decide, by decide⟩

/-- C4: with no group context, the handler makes no remote call, sends the
scope-rejection message, and returns the scope rejection — for every trigger
text and any would-be remote behavior. -/
theorem scope_rejection_no_remote_call (gid uid raw : String)
    (resp : RemoteResponse) :
    (execute false gid uid raw resp).calls = [] ∧
    (execute false gid uid raw resp).messages = ["专属头衔只能在群聊中设置哦~"] ∧
    (execute false gid uid raw resp).outcome = .scopeRejection ∧
    (execute false gid uid raw resp).description = "不在群聊中，无法设置头衔" :=
  ⟨rfl, rfl, rfl, rfl⟩

/-- C5: on the unexpected-exception path (the `NameError` at source line 110,
the only unexpected exception the handler itself can raise), the error is
logged, the host receives a structured failure description with
`handled = true`, and no user-facing message is sent. -/
theorem unexpected_error_logged_and_silent (gid uid title : String)
    (resp : RemoteResponse) (h : UnexpectedPath title resp) :
    (setTitle gid uid title resp).messages = [] ∧
    (setTitle gid uid title resp).outcome
      = .failure ("未知错误: " ++ nameErrorText) ∧
    (setTitle gid uid title resp).description = "未知错误: " ++ nameErrorText ∧
    (setTitle gid uid title resp).handled = true ∧
    ("设置头衔时发生未知错误: " ++ nameErrorText) ∈ (setTitle gid uid title resp).logs := by
  obtain ⟨hs, hstrip, hlen⟩ := h
  rcases resp with e | ⟨code, body⟩
  · exact ((hs : False)).elim
  rcases body with _ | r
  · exact ((hs.2 : False)).elim
  obtain ⟨hrange, hok⟩ := hs
  simp only [setTitle]
  rw [if_neg hrange, if_pos hok,
    if_neg (show ¬ (pyStripTruthy title = true) by
      rw [hstrip]; exact Bool.noConfusion),
    if_pos hlen]
  refine ⟨rfl, rfl, rfl, rfl, ?_⟩
  simp

/-- C5 witness: a single-space title with a 200/ok response. -/
theorem unexpected_error_logged_and_silent_witness :
    UnexpectedPath " " (.httpResponse 200 (some ⟨some "ok", none⟩)) ∧
    (setTitle "10" "20" " "
        (.httpResponse 200 (some ⟨some "ok", none⟩))).messages = [] ∧
    (setTitle "10" "20" " "
        (.httpResponse 200 (some ⟨some "ok", none⟩))).outcome
      = .failure ("未知错误: " ++ nameErrorText) ∧
    (setTitle "10" "20" " "
        (.httpResponse 200 (some ⟨some "ok", none⟩))).description
      = "未知错误: " ++ nameErrorText ∧
    (setTitle "10" "20" " "
        (.httpResponse 200 (some ⟨some "ok", none⟩))).handled = true ∧
    ("设置头衔时发生未知错误: " ++ nameErrorText)
      ∈ (setTitle "10" "20" " "
        (.httpResponse 200 (some ⟨some "ok", none⟩))).logs :=
  ⟨by decide,
    unexpected_error_logged_and_silent "10" "20" " "
      (.httpResponse 200 (some ⟨some "ok", none⟩)) (by decide)⟩

/-- C6: every transport failure (post raising — connection error or timeout
after `requestTimeout = 10` seconds —, an HTTP error code, or an unparsable
body) produces the generic network-error notice and a transport-error
failure outcome, for every title; no exception escapes (the embedding is a
total function into `StepResult`). -/
theorem transport_failure_generic_notice (gid uid title : String)
    (resp : RemoteResponse) (h : TransportFailure resp) :
    (setTitle gid uid title resp).messages = ["❌ 网络错误，请稍后重试~"] ∧
    (∃ e, (setTitle gid uid title resp).outcome
        = .failure ("API请求失败: " ++ e) ∧
      (setTitle gid uid title resp).description = "API请求失败: " ++ e) ∧
    requestTimeout = 10 := by
  rcases resp with e | ⟨code, body⟩
  · exact ⟨rfl, ⟨e, rfl, rfl⟩, rfl⟩
  · have h2 : (400 ≤ code ∧ code < 600) ∨ body = none := h
    rcases h2 with hrange | hnone
    · simp only [setTitle]
      rw [if_pos hrange]
      exact ⟨rfl, ⟨_, rfl, rfl⟩, rfl⟩
    · subst hnone
      simp only [setTitle]
      by_cases hrange : 400 ≤ code ∧ code < 600
      · rw [if_pos hrange]
        exact ⟨rfl, ⟨_, rfl, rfl⟩, rfl⟩
      · rw [if_neg hrange]
        exact ⟨rfl, ⟨_, rfl, rfl⟩, rfl⟩

/-- C6 witness: a timeout, with a non-trivial title. -/
theorem transport_failure_generic_notice_witness :
    TransportFailure (.transportError "ReadTimeout 10s") ∧
    (setTitle "10" "20" "VIP" (.transportError "ReadTimeout 10s")).messages
      = ["❌ 网络错误，请稍后重试~"] ∧
    (∃ e, (setTitle "10" "20" "VIP" (.transportError "ReadTimeout 10s")).outcome
        = .failure ("API请求失败: " ++ e) ∧
      (setTitle "10" "20" "VIP" (.transportError "ReadTimeout 10s")).description
        = "API请求失败: " ++ e) ∧
    requestTimeout = 10 :=
  ⟨by decide,
    transport_failure_generic_notice "10" "20" "VIP"
      (.transportError "ReadTimeout 10s") (by decide)⟩

/-- C7 witness: token followed by exactly three spaces parses to two spaces. -/
theorem parse_ws_run_witness :
    ("   " : String).data.all isPySpace = true ∧
    parsedTitle "/title   " = "  " :=
  ⟨by decide, by exact parse_ws_run "   " (by decide)⟩

/-- C8: a trigger equal to the bare token, or the token with one trailing
space, parses to the empty title, and on a success-classified response the
user message confirms removal and the outcome is `success ""`. -/
theorem bare_token_removal (gid uid raw : String) (resp : RemoteResponse)
    (hraw : raw = "/title" ∨ raw = "/title ") (hresp : RespSuccess resp) :
    parsedTitle raw = "" ∧
    (execute true gid uid raw resp).messages = ["✅ 已收回头衔"] ∧
    (execute true gid uid raw resp).outcome = .success "" := by
  have hpt : parsedTitle raw = "" := by
    rcases hraw with h | h <;> subst h <;> rfl
  refine ⟨hpt, ?_, ?_⟩ <;> rw [execute_group, hpt]
  · exact (setTitle_empty_success gid uid resp hresp).1
  · exact (setTitle_empty_success gid uid resp hresp).2

/-- C8 witness: the bare token with a 200/ok response. -/
theorem bare_token_removal_witness :
    (("/title" : String) = "/title" ∨ ("/title" : String) = "/title ") ∧
    RespSuccess (.httpResponse 200 (some ⟨some "ok", none⟩)) ∧
    parsedTitle "/title" = "" ∧
    (execute true "10" "20" "/title"
        (.httpResponse 200 (some ⟨some "ok", none⟩))).messages = ["✅ 已收回头衔"] ∧
    (execute true "10" "20" "/title"
        (.httpResponse 200 (some ⟨some "ok", none⟩))).outcome = .success "" :=
  ⟨Or.inl rfl, by decide,
    (bare_token_removal "10" "20" "/title"
      (.httpResponse 200 (some ⟨some "ok", none⟩)) (Or.inl rfl) (by decide)).1,
    (bare_token_removal "10" "20" "/title"
      (.httpResponse 200 (some ⟨some "ok", none⟩)) (Or.inl rfl) (by decide)).2.1,
    (bare_token_removal "10" "20" "/title"
      (.httpResponse 200 (some ⟨some "ok", none⟩)) (Or.inl rfl) (by decide)).2.2⟩

/-- C9 witness: `/title hello` parses to `hello`. -/
theorem parse_after_space_witness :
    ("hello" : String) ≠ "" ∧ parsedTitle "/title hello" = "hello" :=
  ⟨by decide, by exact parse_after_space "hello" (by decide)⟩

/-- C10: every invocation, whatever the scope flag, trigger text and remote
behavior, returns a tuple with `handled = true` and `terminal = false`. -/
theorem handled_true_terminal_false (g : Bool) (gid uid raw : String)
    (resp : RemoteResponse) :
    (execute g gid uid raw resp).handled = true ∧
    (execute g gid uid raw resp).terminal = false := by
  cases g
  · exact ⟨rfl, rfl⟩
  · rw [execute_group]
    exact setTitle_flags gid uid (parsedTitle raw) resp

end TitlePlugin
